import Mathlib

/-!
Shallow embedding of `src/src/models/extra_settings.rs` from subconverter-rs:
the `ExtraSettings` configuration value, its `Default` implementation reading a
process-wide `Settings` snapshot, the lazy scripting-state initializer
`init_js_context`, and the user-script filtering stage `eval_filter_function`.

The embedded rquickjs engine is an external collaborator; it is modelled as a
record of the three engine operations the code uses (top-level evaluation of
the source, lookup of the global `filter` callable, and the per-node call),
exactly the boundary interface used by `eval_filter_function`. Runtime and
context handles are modelled as identity-carrying records so that reuse versus
reallocation is observable.
-/

set_option autoImplicit false

namespace Subconverter

/-- Handle to a QuickJS runtime (rquickjs `Runtime`); the identity field makes
reallocation observable. -/
structure Runtime where
  id : Nat
deriving Repr, DecidableEq

/-- Handle to a QuickJS context (rquickjs `Context`); the identity field makes
reallocation observable. -/
structure Context where
  id : Nat
deriving Repr, DecidableEq

/-- External collaborator `RegexMatchConfig` (an entry of rename/emoji rule
tables), modelled as its two text fields. -/
structure RegexMatchConfig where
  regex : String
  replace : String
deriving Repr, DecidableEq

/-- Vec of RegexMatchConfig, as in `super::RegexMatchConfigs`. -/
abbrev RegexMatchConfigs := List RegexMatchConfig

/-- External collaborator `Proxy`: a structured marshal-capable proxy-node
record. Its field semantics are out of scope; a name, server and port suffice
for the filtering stage. -/
structure Proxy where
  name : String
  server : String
  port : Nat
deriving Repr, DecidableEq

/-- Fields of the process-wide `Settings` snapshot (`Settings::current()`) that
`ExtraSettings::default` reads. -/
structure Settings where
  enable_rule_gen : Bool
  overwrite_original_rules : Bool
  surge_ssr_path : String
  clash_proxies_style : String
  clash_proxy_groups_style : String
deriving Repr, DecidableEq

/-- Settings for subscription export operations (struct `ExtraSettings`). -/
structure ExtraSettings where
  enable_rule_generator : Bool
  overwrite_original_rules : Bool
  rename_array : RegexMatchConfigs
  emoji_array : RegexMatchConfigs
  add_emoji : Bool
  remove_emoji : Bool
  append_proxy_type : Bool
  nodelist : Bool
  sort_flag : Bool
  filter_deprecated : Bool
  clash_new_field_name : Bool
  clash_script : Bool
  surge_ssr_path : String
  managed_config_prefix : String
  quanx_dev_id : String
  udp : Option Bool
  tfo : Option Bool
  skip_cert_verify : Option Bool
  tls13 : Option Bool
  clash_classical_ruleset : Bool
  sort_script : String
  clash_proxies_style : String
  clash_proxy_groups_style : String
  authorized : Bool
  js_context : Option Context
  js_runtime : Option Runtime
deriving Repr, DecidableEq

/-- Translation of `impl Default for ExtraSettings`, with the snapshot read by
`Settings::current()` passed explicitly as `global`. -/
def ExtraSettings.default (global : Settings) : ExtraSettings :=
  { enable_rule_generator := global.enable_rule_gen
    overwrite_original_rules := global.overwrite_original_rules
    rename_array := []
    emoji_array := []
    add_emoji := false
    remove_emoji := false
    append_proxy_type := false
    nodelist := false
    sort_flag := false
    filter_deprecated := false
    clash_new_field_name := true
    clash_script := false
    surge_ssr_path := global.surge_ssr_path
    managed_config_prefix := ""
    quanx_dev_id := ""
    udp := none
    tfo := none
    skip_cert_verify := none
    tls13 := none
    clash_classical_ruleset := false
    sort_script := ""
    clash_proxies_style :=
      if global.clash_proxies_style.isEmpty then "flow"
      else global.clash_proxies_style
    clash_proxy_groups_style :=
      if global.clash_proxy_groups_style.isEmpty then "flow"
      else global.clash_proxy_groups_style
    authorized := false
    js_context := none
    js_runtime := none }

/-- Translation of `ExtraSettings::init_js_context`: if `js_runtime` is absent,
create a fresh runtime and a fresh context over it (identity `fresh` stands for
the newly allocated engine objects); otherwise do nothing. -/
def init_js_context (fresh : Nat) (es : ExtraSettings) : ExtraSettings :=
  if es.js_runtime.isNone then
    { es with js_runtime := some ⟨fresh⟩, js_context := some ⟨fresh⟩ }
  else es

/-- Error raised by top-level evaluation in the engine: either a script
exception (`rquickjs::Error::Exception`, carrying the caught message) or any
other evaluation error. -/
inductive JsError where
  | exception (msg : String)
  | other (msg : String)
deriving Repr, DecidableEq

/-- Behaviour of the embedded scripting engine on a given source program, the
boundary interface `eval_filter_function` uses: `eval` is the outcome of
`ctx.eval(source_str)`; `getFilter` is the outcome of looking up the global
`filter` callable after evaluating that source (`none` when absent or not
callable) together with the per-node behaviour of calling it (`none` for a
per-call failure: marshalling error, thrown exception, non-boolean result). -/
structure JsEngine where
  eval : String → Except JsError Unit
  getFilter : String → Option (Proxy → Option Bool)

/-- Failure reported by `eval_filter_function` to its caller: the boxed
`rquickjs` error when top-level evaluation failed, or the string error built
when `js_context` is absent. -/
inductive FilterError where
  | js (e : JsError)
  | contextNotInitialized
deriving Repr, DecidableEq

/-- Error message carried by a `FilterError`, matching the strings the Rust
code boxes into `Box<dyn Error>`. -/
def FilterError.message : FilterError → String
  | .js (.exception m) => m
  | .js (.other m) => m
  | .contextNotInitialized => "JavaScript context not initialized"

/-- Translation of `ExtraSettings::eval_filter_function`. Returns the updated
settings value, the updated node collection, and the `Result`. The Rust
control flow: call `init_js_context`; if `js_context` is present, evaluate the
source (an error sets `error_thrown` and leaves the closure); then look up the
global `filter` (an error only logs and leaves the closure, `error_thrown`
stays unset); then `retain_mut` keeps each node for which the call returns
`Ok(true)` and drops it on `Ok(false)` or any call error; finally return
`Err(error_thrown)` or `Ok(())`. If `js_context` is absent, return the string
error. -/
def eval_filter_function (engine : JsEngine) (fresh : Nat) (es : ExtraSettings)
    (nodes : List Proxy) (source_str : String) :
    ExtraSettings × List Proxy × Except FilterError Unit :=
  let es := init_js_context fresh es
  match es.js_context with
  | some _ =>
    match engine.eval source_str with
    | .error e => (es, nodes, .error (.js e))
    | .ok _ =>
      match engine.getFilter source_str with
      | none => (es, nodes, .ok ())
      | some filter_evaluated =>
        (es, nodes.filter (fun node => (filter_evaluated node).getD false),
          .ok ())
  | none => (es, nodes, .error .contextNotInitialized)

/-- Pairing invariant on the scripting state: `js_runtime` and `js_context`
are either both absent or both present. -/
def pairInvariant (es : ExtraSettings) : Prop :=
  (es.js_runtime = none ∧ es.js_context = none) ∨
    (es.js_runtime.isSome ∧ es.js_context.isSome)

instance (es : ExtraSettings) : Decidable (pairInvariant es) := by
  unfold pairInvariant; infer_instance

/-- Equality of every `ExtraSettings` field other than the scripting-state
pair `js_runtime` and `js_context`. -/
def sameNonJsFields (a b : ExtraSettings) : Prop :=
  a.enable_rule_generator = b.enable_rule_generator ∧
  a.overwrite_original_rules = b.overwrite_original_rules ∧
  a.rename_array = b.rename_array ∧
  a.emoji_array = b.emoji_array ∧
  a.add_emoji = b.add_emoji ∧
  a.remove_emoji = b.remove_emoji ∧
  a.append_proxy_type = b.append_proxy_type ∧
  a.nodelist = b.nodelist ∧
  a.sort_flag = b.sort_flag ∧
  a.filter_deprecated = b.filter_deprecated ∧
  a.clash_new_field_name = b.clash_new_field_name ∧
  a.clash_script = b.clash_script ∧
  a.surge_ssr_path = b.surge_ssr_path ∧
  a.managed_config_prefix = b.managed_config_prefix ∧
  a.quanx_dev_id = b.quanx_dev_id ∧
  a.udp = b.udp ∧
  a.tfo = b.tfo ∧
  a.skip_cert_verify = b.skip_cert_verify ∧
  a.tls13 = b.tls13 ∧
  a.clash_classical_ruleset = b.clash_classical_ruleset ∧
  a.sort_script = b.sort_script ∧
  a.clash_proxies_style = b.clash_proxies_style ∧
  a.clash_proxy_groups_style = b.clash_proxy_groups_style ∧
  a.authorized = b.authorized

/-! Concrete sample values used by witnesses and counterexamples. -/

/-- Sample settings snapshot: empty proxies style, non-empty groups style. -/
def gSample : Settings :=
  { enable_rule_gen := true
    overwrite_original_rules := false
    surge_ssr_path := "/usr/bin/ssr-local"
    clash_proxies_style := ""
    clash_proxy_groups_style := "block" }

/-- Sample node with port 80. -/
def pA : Proxy := { name := "A", server := "a.example.com", port := 80 }

/-- Sample node with port 0, the one the sample filter call fails on. -/
def pB : Proxy := { name := "B", server := "b.example.com", port := 0 }

/-- Sample node with port 443. -/
def pC : Proxy := { name := "C", server := "c.example.com", port := 443 }

/-- Engine behaviour of a script whose top-level evaluation succeeds but whose
global environment has no callable `filter` binding. -/
def noFilterEngine : JsEngine :=
  { eval := fun _ => .ok ()
    getFilter := fun _ => none }

/-- Per-node behaviour of a `filter` whose call fails on nodes with port 0 and
otherwise returns whether the port is positive. -/
def portFilter : Proxy → Option Bool :=
  fun n => if n.port = 0 then none else some (decide (0 < n.port))

/-- Engine behaviour of a script defining the `filter` modelled by
`portFilter`. -/
def portEngine : JsEngine :=
  { eval := fun _ => .ok ()
    getFilter := fun _ => some portFilter }

/-- Engine behaviour of a script that throws during top-level evaluation. -/
def throwEngine : JsEngine :=
  { eval := fun _ => .error (.exception "boom")
    getFilter := fun _ => none }

/-- Sample settings value in the externally mutated state of claim C10:
runtime present, context absent. -/
def esBroken : ExtraSettings :=
  { ExtraSettings.default gSample with js_runtime := some ⟨7⟩ }

/-! Helper lemmas about the initializer and the filter stage (shared across
the claim theorems below). -/

/-- If a runtime is already present, `init_js_context` does nothing. -/
lemma init_js_context_of_isSome (fresh : Nat) (es : ExtraSettings)
    (h : es.js_runtime.isSome) : init_js_context fresh es = es := by
  unfold init_js_context
  simp [Option.isNone_iff_eq_none, Option.isSome_iff_ne_none.mp h]

/-- After `init_js_context`, a runtime handle is always present. -/
lemma init_js_context_runtime_isSome (fresh : Nat) (es : ExtraSettings) :
    ((init_js_context fresh es).js_runtime).isSome := by
  unfold init_js_context
  cases h : es.js_runtime <;> simp [h]

/-- Under the pairing invariant, `init_js_context` yields a present context. -/
lemma init_js_context_context_isSome (fresh : Nat) (es : ExtraSettings)
    (h : pairInvariant es) : ((init_js_context fresh es).js_context).isSome := by
  unfold init_js_context
  rcases h with ⟨hr, _⟩ | ⟨hr, hc⟩
  · simp [hr]
  · simp [Option.isNone_iff_eq_none, Option.isSome_iff_ne_none.mp hr, hc]

/-- The initializer preserves the pairing invariant. -/
lemma pairInvariant_init (fresh : Nat) (es : ExtraSettings)
    (h : pairInvariant es) : pairInvariant (init_js_context fresh es) := by
  cases hr : es.js_runtime with
  | none =>
    unfold pairInvariant init_js_context
    simp [hr]
  | some r =>
    rw [init_js_context_of_isSome fresh es (by simp [hr])]
    exact h

/-- The settings value returned by `eval_filter_function` is exactly the
result of `init_js_context`: nothing else in the function touches it. -/
lemma eval_filter_function_settings (engine : JsEngine) (fresh : Nat)
    (es : ExtraSettings) (nodes : List Proxy) (src : String) :
    (eval_filter_function engine fresh es nodes src).1 =
      init_js_context fresh es := by
  unfold eval_filter_function
  cases hc : (init_js_context fresh es).js_context with
  | none => simp [hc]
  | some c =>
    cases he : engine.eval src with
    | error e => simp [hc, he]
    | ok u =>
      cases hg : engine.getFilter src with
      | none => simp [hc, he, hg]
      | some f => simp [hc, he, hg]

/-- Unfolding of `eval_filter_function` when the post-init context is
present. -/
lemma eval_filter_function_context_some (engine : JsEngine) (fresh : Nat)
    (es : ExtraSettings) (nodes : List Proxy) (src : String) (c : Context)
    (hc : (init_js_context fresh es).js_context = some c) :
    eval_filter_function engine fresh es nodes src =
      match engine.eval src with
      | .error e => (init_js_context fresh es, nodes, .error (.js e))
      | .ok _ =>
        match engine.getFilter src with
        | none => (init_js_context fresh es, nodes, .ok ())
        | some f =>
          (init_js_context fresh es,
            nodes.filter (fun n => (f n).getD false), .ok ()) := by
  unfold eval_filter_function
  simp [hc]

/-- Unfolding of `eval_filter_function` when the post-init context is
absent. -/
lemma eval_filter_function_context_none (engine : JsEngine) (fresh : Nat)
    (es : ExtraSettings) (nodes : List Proxy) (src : String)
    (hc : (init_js_context fresh es).js_context = none) :
    eval_filter_function engine fresh es nodes src =
      (init_js_context fresh es, nodes, .error .contextNotInitialized) := by
  unfold eval_filter_function
  simp [hc]

/-! Claim theorems. -/

/-- C1 counterexample: with a script whose top-level evaluation succeeds but
whose global environment has no callable `filter` binding, the code leaves the
nodes unchanged but returns `Ok(())` — overall success, not the error result
the claim asserts. -/
theorem C1_counterexample :
    (eval_filter_function noFilterEngine 0 (ExtraSettings.default gSample)
        [pA] "1 + 1").2.2 = Except.ok () ∧
    (eval_filter_function noFilterEngine 0 (ExtraSettings.default gSample)
        [pA] "1 + 1").2.1 = [pA] :=
  ⟨rfl, rfl⟩

/-- C1 (amended): when top-level evaluation succeeds but the global `filter`
binding is absent or not callable, `eval_filter_function` leaves the node
collection unchanged, and the missing-function condition is only logged: no
failure is recorded, so the call reports overall success. -/
theorem C1_missing_filter_success (engine : JsEngine) (fresh : Nat)
    (es : ExtraSettings) (nodes : List Proxy) (src : String)
    (hpair : pairInvariant es)
    (heval : engine.eval src = Except.ok ())
    (hget : engine.getFilter src = none) :
    (eval_filter_function engine fresh es nodes src).2.1 = nodes ∧
    (eval_filter_function engine fresh es nodes src).2.2 = Except.ok () := by
  obtain ⟨c, hc⟩ := Option.isSome_iff_exists.mp
    (init_js_context_context_isSome fresh es hpair)
  rw [eval_filter_function_context_some engine fresh es nodes src c hc,
    heval, hget]
  exact ⟨rfl, rfl⟩

/-- C1 witness: the amended statement at a concrete engine, settings value and
node list. -/
theorem C1_missing_filter_success_witness :
    (eval_filter_function noFilterEngine 2 (ExtraSettings.default gSample)
        [pA, pC] "function g() \x7b return 1; \x7d").2.1 = [pA, pC] ∧
    (eval_filter_function noFilterEngine 2 (ExtraSettings.default gSample)
        [pA, pC] "function g() \x7b return 1; \x7d").2.2 = Except.ok () :=
  C1_missing_filter_success noFilterEngine 2 (ExtraSettings.default gSample)
    [pA, pC] "function g() \x7b return 1; \x7d" (Or.inl ⟨rfl, rfl⟩) rfl rfl

/-- C2: whenever `eval_filter_function` returns overall success after a
callable `filter` was found, the node collection afterwards is exactly the
filter of the input by the predicate "`filter` returned true", so it contains
exactly the retained elements, in original relative order (a sublist of the
input), with every element whose per-call invocation failed excluded. -/
theorem C2_success_filters_exactly (engine : JsEngine) (fresh : Nat)
    (es : ExtraSettings) (nodes : List Proxy) (src : String)
    (f : Proxy → Option Bool)
    (heval : engine.eval src = Except.ok ())
    (hget : engine.getFilter src = some f)
    (hok : (eval_filter_function engine fresh es nodes src).2.2 =
      Except.ok ()) :
    (eval_filter_function engine fresh es nodes src).2.1 =
      nodes.filter (fun n => (f n).getD false) ∧
    (∀ n, n ∈ (eval_filter_function engine fresh es nodes src).2.1 ↔
      (n ∈ nodes ∧ f n = some true)) ∧
    List.Sublist (eval_filter_function engine fresh es nodes src).2.1 nodes := by
  cases hc : (init_js_context fresh es).js_context with
  | none =>
    rw [eval_filter_function_context_none engine fresh es nodes src hc] at hok
    exact absurd hok (by simp)
  | some c =>
    rw [eval_filter_function_context_some engine fresh es nodes src c hc,
      heval, hget]
    refine ⟨rfl, ?_, ?_⟩
    · intro n
      simp only [List.mem_filter]
      constructor
      · rintro ⟨hn, hp⟩
        refine ⟨hn, ?_⟩
        cases hfn : f n with
        | none => rw [hfn] at hp; exact absurd hp (by simp)
        | some b => rw [hfn] at hp; simp at hp; rw [hp]
      · rintro ⟨hn, hp⟩
        exact ⟨hn, by rw [hp]; rfl⟩
    · exact List.filter_sublist nodes

/-- C2 witness: a concrete filter failing on port 0 and keeping positive
ports, on the three sample nodes. -/
theorem C2_success_filters_exactly_witness :
    (eval_filter_function portEngine 0 (ExtraSettings.default gSample)
        [pA, pB, pC] "1 + 1").2.1 =
      [pA, pB, pC].filter (fun n => (portFilter n).getD false) ∧
    (∀ n, n ∈ (eval_filter_function portEngine 0 (ExtraSettings.default gSample)
        [pA, pB, pC] "1 + 1").2.1 ↔
      (n ∈ [pA, pB, pC] ∧ portFilter n = some true)) ∧
    List.Sublist (eval_filter_function portEngine 0
      (ExtraSettings.default gSample) [pA, pB, pC] "1 + 1").2.1 [pA, pB, pC] :=
  C2_success_filters_exactly portEngine 0 (ExtraSettings.default gSample)
    [pA, pB, pC] "1 + 1" portFilter rfl rfl rfl

/-- C3: when top-level evaluation raises a script exception or a
non-exception evaluation error, `eval_filter_function` leaves the node
collection exactly as on entry and returns that failure explicitly to the
caller; the per-node loop is never entered. -/
theorem C3_eval_error_unchanged (engine : JsEngine) (fresh : Nat)
    (es : ExtraSettings) (nodes : List Proxy) (src : String) (e : JsError)
    (hpair : pairInvariant es)
    (heval : engine.eval src = Except.error e) :
    (eval_filter_function engine fresh es nodes src).2.1 = nodes ∧
    (eval_filter_function engine fresh es nodes src).2.2 =
      Except.error (FilterError.js e) := by
  obtain ⟨c, hc⟩ := Option.isSome_iff_exists.mp
    (init_js_context_context_isSome fresh es hpair)
  rw [eval_filter_function_context_some engine fresh es nodes src c hc, heval]
  exact ⟨rfl, rfl⟩

/-- C3 witness: a concrete script throwing during top-level evaluation. -/
theorem C3_eval_error_unchanged_witness :
    (eval_filter_function throwEngine 0 (ExtraSettings.default gSample)
        [pA, pB, pC] "throw 1").2.1 = [pA, pB, pC] ∧
    (eval_filter_function throwEngine 0 (ExtraSettings.default gSample)
        [pA, pB, pC] "throw 1").2.2 =
      Except.error (FilterError.js (JsError.exception "boom")) :=
  C3_eval_error_unchanged throwEngine 0 (ExtraSettings.default gSample)
    [pA, pB, pC] "throw 1" (JsError.exception "boom")
    (Or.inl ⟨rfl, rfl⟩) rfl

/-- C4: when a callable `filter` is found, a node whose invocation fails is
dropped, the loop continues so every other node is retained or dropped per its
own `filter` result, and the overall operation still reports success. -/
theorem C4_percall_failure_drops_node (engine : JsEngine) (fresh : Nat)
    (es : ExtraSettings) (nodes : List Proxy) (src : String)
    (f : Proxy → Option Bool)
    (hpair : pairInvariant es)
    (heval : engine.eval src = Except.ok ())
    (hget : engine.getFilter src = some f) :
    (eval_filter_function engine fresh es nodes src).2.2 = Except.ok () ∧
    (eval_filter_function engine fresh es nodes src).2.1 =
      nodes.filter (fun n => (f n).getD false) ∧
    ∀ n, f n = none → n ∉ (eval_filter_function engine fresh es nodes src).2.1 := by
  obtain ⟨c, hc⟩ := Option.isSome_iff_exists.mp
    (init_js_context_context_isSome fresh es hpair)
  rw [eval_filter_function_context_some engine fresh es nodes src c hc,
    heval, hget]
  refine ⟨rfl, rfl, ?_⟩
  intro n hn
  simp [List.mem_filter, hn]

/-- C4 witness: the sample filter whose call fails exactly on the port-0 node;
that node is dropped, the rest follow their own result and the call
succeeds. -/
theorem C4_percall_failure_drops_node_witness :
    (eval_filter_function portEngine 1 (ExtraSettings.default gSample)
        [pA, pB, pC] "1 + 1").2.2 = Except.ok () ∧
    (eval_filter_function portEngine 1 (ExtraSettings.default gSample)
        [pA, pB, pC] "1 + 1").2.1 =
      [pA, pB, pC].filter (fun n => (portFilter n).getD false) ∧
    ∀ n, portFilter n = none →
      n ∉ (eval_filter_function portEngine 1 (ExtraSettings.default gSample)
        [pA, pB, pC] "1 + 1").2.1 :=
  C4_percall_failure_drops_node portEngine 1 (ExtraSettings.default gSample)
    [pA, pB, pC] "1 + 1" portFilter (Or.inl ⟨rfl, rfl⟩) rfl rfl

/-- C5 counterexample: `clash_new_field_name` is a boolean field that is not
read from the settings snapshot, yet `ExtraSettings::default` sets it to
`true`, not `false` as the claim asserts. -/
theorem C5_counterexample :
    (ExtraSettings.default gSample).clash_new_field_name ≠ false := by
  decide

/-- C5 (amended): in `ExtraSettings::default`, every field other than the
snapshot-derived ones and `clash_new_field_name` equals the empty string,
`false`, the empty list, or `none` (the scripting-state pair is also absent);
the one exception is `clash_new_field_name`, which defaults to `true`. -/
theorem C5_defaults_amended (g : Settings) :
    (ExtraSettings.default g).rename_array = [] ∧
    (ExtraSettings.default g).emoji_array = [] ∧
    (ExtraSettings.default g).add_emoji = false ∧
    (ExtraSettings.default g).remove_emoji = false ∧
    (ExtraSettings.default g).append_proxy_type = false ∧
    (ExtraSettings.default g).nodelist = false ∧
    (ExtraSettings.default g).sort_flag = false ∧
    (ExtraSettings.default g).filter_deprecated = false ∧
    (ExtraSettings.default g).clash_new_field_name = true ∧
    (ExtraSettings.default g).clash_script = false ∧
    ExtraSettings.managed_config_prefix (ExtraSettings.default g) = "" ∧
    (ExtraSettings.default g).quanx_dev_id = "" ∧
    (ExtraSettings.default g).udp = none ∧
    (ExtraSettings.default g).tfo = none ∧
    (ExtraSettings.default g).skip_cert_verify = none ∧
    (ExtraSettings.default g).tls13 = none ∧
    (ExtraSettings.default g).clash_classical_ruleset = false ∧
    (ExtraSettings.default g).sort_script = "" ∧
    (ExtraSettings.default g).authorized = false ∧
    (ExtraSettings.default g).js_context = none ∧
    (ExtraSettings.default g).js_runtime = none :=
  ⟨rfl, rfl, rfl, rfl, rfl, rfl, rfl, rfl, rfl, rfl, rfl, rfl, rfl, rfl, rfl,
    rfl, rfl, rfl, rfl, rfl, rfl⟩

/-- C5 witness: the amended statement at the concrete sample snapshot. -/
theorem C5_defaults_amended_witness :
    (ExtraSettings.default gSample).rename_array = [] ∧
    (ExtraSettings.default gSample).emoji_array = [] ∧
    (ExtraSettings.default gSample).add_emoji = false ∧
    (ExtraSettings.default gSample).remove_emoji = false ∧
    (ExtraSettings.default gSample).append_proxy_type = false ∧
    (ExtraSettings.default gSample).nodelist = false ∧
    (ExtraSettings.default gSample).sort_flag = false ∧
    (ExtraSettings.default gSample).filter_deprecated = false ∧
    (ExtraSettings.default gSample).clash_new_field_name = true ∧
    (ExtraSettings.default gSample).clash_script = false ∧
    ExtraSettings.managed_config_prefix (ExtraSettings.default gSample) = "" ∧
    (ExtraSettings.default gSample).quanx_dev_id = "" ∧
    (ExtraSettings.default gSample).udp = none ∧
    (ExtraSettings.default gSample).tfo = none ∧
    (ExtraSettings.default gSample).skip_cert_verify = none ∧
    (ExtraSettings.default gSample).tls13 = none ∧
    (ExtraSettings.default gSample).clash_classical_ruleset = false ∧
    (ExtraSettings.default gSample).sort_script = "" ∧
    (ExtraSettings.default gSample).authorized = false ∧
    (ExtraSettings.default gSample).js_context = none ∧
    (ExtraSettings.default gSample).js_runtime = none :=
  C5_defaults_amended gSample

/-- C6: `init_js_context` is idempotent — when a runtime/context pair already
exists it leaves the settings value unchanged — and consequently the settings
value after a second sequential `eval_filter_function` call equals the one
after the first call: the identical runtime and context handles are reused,
with no reallocation. -/
theorem C6_context_reuse (fresh fresh2 : Nat) (e1 e2 : JsEngine)
    (es : ExtraSettings) (ns1 ns2 : List Proxy) (s1 s2 : String)
    (h : es.js_runtime.isSome) :
    init_js_context fresh es = es ∧
    (eval_filter_function e2 fresh2
        (eval_filter_function e1 fresh es ns1 s1).1 ns2 s2).1 =
      (eval_filter_function e1 fresh es ns1 s1).1 := by
  refine ⟨init_js_context_of_isSome fresh es h, ?_⟩
  rw [eval_filter_function_settings, eval_filter_function_settings]
  exact init_js_context_of_isSome fresh2 (init_js_context fresh es)
    (init_js_context_runtime_isSome fresh es)

/-- C6 witness: concrete settings value with an existing runtime, and two
concrete sequential calls. -/
theorem C6_context_reuse_witness :
    init_js_context 4 esBroken = esBroken ∧
    (eval_filter_function portEngine 5
        (eval_filter_function noFilterEngine 4 esBroken [pA] "1 + 1").1
        [pC] "2 + 2").1 =
      (eval_filter_function noFilterEngine 4 esBroken [pA] "1 + 1").1 :=
  C6_context_reuse 4 5 noFilterEngine portEngine esBroken [pA] [pC]
    "1 + 1" "2 + 2" rfl

/-- C7: the pairing invariant — `js_runtime` and `js_context` both absent or
both present — holds after `ExtraSettings::default` (both absent) and is
preserved by `init_js_context` and by `eval_filter_function`; and once the
pair has been created by the initializer, `eval_filter_function` returns the
settings value unchanged, so neither handle is individually torn down or
recreated. -/
theorem C7_pairing_invariant (g : Settings) (fresh fresh2 : Nat)
    (engine : JsEngine) (es : ExtraSettings) (ns : List Proxy) (src : String)
    (hpair : pairInvariant es) :
    (ExtraSettings.default g).js_runtime = none ∧
    (ExtraSettings.default g).js_context = none ∧
    pairInvariant (ExtraSettings.default g) ∧
    pairInvariant (init_js_context fresh es) ∧
    pairInvariant ((eval_filter_function engine fresh es ns src).1) ∧
    (eval_filter_function engine fresh2 (init_js_context fresh es) ns src).1 =
      init_js_context fresh es := by
  refine ⟨rfl, rfl, Or.inl ⟨rfl, rfl⟩, pairInvariant_init fresh es hpair,
    ?_, ?_⟩
  · rw [eval_filter_function_settings]
    exact pairInvariant_init fresh es hpair
  · rw [eval_filter_function_settings]
    exact init_js_context_of_isSome fresh2 (init_js_context fresh es)
      (init_js_context_runtime_isSome fresh es)

/-- C7 witness: the pairing invariant at the concrete default settings value
and a concrete engine. -/
theorem C7_pairing_invariant_witness :
    (ExtraSettings.default gSample).js_runtime = none ∧
    (ExtraSettings.default gSample).js_context = none ∧
    pairInvariant (ExtraSettings.default gSample) ∧
    pairInvariant (init_js_context 0 (ExtraSettings.default gSample)) ∧
    pairInvariant ((eval_filter_function noFilterEngine 0
      (ExtraSettings.default gSample) [pA] "1 + 1").1) ∧
    (eval_filter_function noFilterEngine 1
        (init_js_context 0 (ExtraSettings.default gSample)) [pA] "1 + 1").1 =
      init_js_context 0 (ExtraSettings.default gSample) :=
  C7_pairing_invariant gSample 0 1 noFilterEngine
    (ExtraSettings.default gSample) [pA] "1 + 1" (Or.inl ⟨rfl, rfl⟩)

/-- C8: in `ExtraSettings::default`, `clash_proxies_style` and
`clash_proxy_groups_style` each equal the literal "flow" when the
corresponding snapshot string is empty, and otherwise equal that snapshot
string exactly. -/
theorem C8_flow_fallback (g : Settings) :
    (g.clash_proxies_style = "" →
      (ExtraSettings.default g).clash_proxies_style = "flow") ∧
    (g.clash_proxies_style ≠ "" →
      (ExtraSettings.default g).clash_proxies_style =
        g.clash_proxies_style) ∧
    (g.clash_proxy_groups_style = "" →
      (ExtraSettings.default g).clash_proxy_groups_style = "flow") ∧
    (g.clash_proxy_groups_style ≠ "" →
      (ExtraSettings.default g).clash_proxy_groups_style =
        g.clash_proxy_groups_style) := by
  refine ⟨?_, ?_, ?_, ?_⟩ <;> intro h <;>
    simp [ExtraSettings.default, String.isEmpty_iff, h]

/-- C8 witness: the sample snapshot has an empty proxies style (falls back to
"flow") and the non-empty groups style "block" (copied exactly). -/
theorem C8_flow_fallback_witness :
    (ExtraSettings.default gSample).clash_proxies_style = "flow" ∧
    (ExtraSettings.default gSample).clash_proxy_groups_style = "block" :=
  ⟨(C8_flow_fallback gSample).1 rfl,
    (C8_flow_fallback gSample).2.2.2 (by decide)⟩

/-- C9: `eval_filter_function` leaves every `ExtraSettings` field other than
the scripting-state pair `js_runtime` and `js_context` unchanged. -/
theorem C9_frame (engine : JsEngine) (fresh : Nat) (es : ExtraSettings)
    (nodes : List Proxy) (src : String) :
    sameNonJsFields ((eval_filter_function engine fresh es nodes src).1) es := by
  rw [eval_filter_function_settings]
  unfold sameNonJsFields init_js_context
  cases h : es.js_runtime <;> simp [h]

/-- C9 witness: the frame condition at a concrete engine, settings value and
node list. -/
theorem C9_frame_witness :
    sameNonJsFields ((eval_filter_function portEngine 9
      (ExtraSettings.default gSample) [pA, pB] "1 + 1").1)
      (ExtraSettings.default gSample) :=
  C9_frame portEngine 9 (ExtraSettings.default gSample) [pA, pB] "1 + 1"

/-- C10: when `js_runtime` is present but `js_context` is absent,
`eval_filter_function` performs no initialization and returns the settings
value, the node collection and the error unchanged, and that error carries the
message "JavaScript context not initialized". -/
theorem C10_context_missing (engine : JsEngine) (fresh : Nat)
    (es : ExtraSettings) (nodes : List Proxy) (src : String) (r : Runtime)
    (hr : es.js_runtime = some r) (hc : es.js_context = none) :
    eval_filter_function engine fresh es nodes src =
      (es, nodes, Except.error FilterError.contextNotInitialized) ∧
    FilterError.message FilterError.contextNotInitialized =
      "JavaScript context not initialized" := by
  have hinit : init_js_context fresh es = es :=
    init_js_context_of_isSome fresh es (by simp [hr])
  refine ⟨?_, rfl⟩
  rw [eval_filter_function_context_none engine fresh es nodes src
    (by rw [hinit]; exact hc), hinit]

/-- C10 witness: the concrete externally mutated settings value with a runtime
but no context. -/
theorem C10_context_missing_witness :
    eval_filter_function noFilterEngine 0 esBroken [pA] "1 + 1" =
      (esBroken, [pA], Except.error FilterError.contextNotInitialized) ∧
    FilterError.message FilterError.contextNotInitialized =
      "JavaScript context not initialized" :=
  C10_context_missing noFilterEngine 0 esBroken [pA] "1 + 1" ⟨7⟩ rfl rfl

end Subconverter
